import Mathlib

/-!
Verification of the eTravelogs deal-automation scripts.

The JavaScript sources are embedded shallowly: browser navigation and file
reads become explicit inputs (scraped prices, rating tokens, file contents),
JavaScript numbers become `Int`/`Nat` (all prices in the scripts come from
`parseInt` over regex digit groups, ratings from a one-decimal regex group
that we carry scaled by ten), and `Math.round` becomes exact floor-rounding
over rationals represented as integer pairs.
-/

namespace ETravelogs

/-- JavaScript `Math.round (num / den)` for a positive denominator:
rounding half toward positive infinity, i.e. `⌊num/den + 1/2⌋`. -/
def jsRound (num den : Int) : Int :=
  Int.fdiv (2 * num + den) (2 * den)

/-- JavaScript `o || dflt` applied to a possibly-missing number: `undefined`
and `0` are falsy and select the default. -/
def jsOrElseInt (o : Option Int) (dflt : Int) : Int :=
  match o with
  | some v => if v = 0 then dflt else v
  | none => dflt

/-- The seen-set loop shared by both `deduplicateDeals` implementations
(part_003 lines 316-324, part_004 lines 316-324): walk the list in order,
skipping a record whose composite key was already seen and otherwise
recording the key. -/
def dedupBy (key : α → String) (seen : List String) : List α → List α
  | [] => []
  | d :: rest =>
    if seen.contains (key d) then dedupBy key seen rest
    else d :: dedupBy key (key d :: seen) rest

/-- Specification-style first-occurrence selection: keep the head and drop
every later record sharing its key, recursively. -/
def keepFirstByKey (key : α → String) : List α → List α
  | [] => []
  | d :: rest =>
    d :: keepFirstByKey key (rest.filter fun e => !(key e == key d))
termination_by l => l.length
decreasing_by
  simp only [List.length_cons]
  exact Nat.lt_succ_of_le (List.length_filter_le _ _)

/-- Scanner for an adjacent pair of characters: `pairIn a b l` is true when
`[a, b]` occurs contiguously in `l`. -/
def pairIn (a b : Char) : List Char → Bool
  | [] => false
  | [_] => false
  | x :: y :: rest => (x == a && y == b) || pairIn a b (y :: rest)

end ETravelogs

namespace FlightScraper

/-- Entry of `CONFIG.originCities` (part_003 lines 20-31). -/
structure City where
  code : String
  name : String
  metro : String
deriving DecidableEq

/-- Entry of `CONFIG.destinations` (part_003 lines 34-47). -/
structure Dest where
  code : String
  name : String
  country : String
deriving DecidableEq

/-- `CONFIG.expediaAffiliateTag` with the environment variable unset. -/
def expediaAffiliateTag : String := "etravelogs"

/-- `CONFIG.expediaPublisherId` with the environment variable unset. -/
def expediaPublisherId : String := "1011l387199"

/-- `CONFIG.originCities`: the ten US origin cities. -/
def originCities : List City :=
  [⟨"JFK", "New York (JFK)", "NYC"⟩,
   ⟨"LAX", "Los Angeles", "LAX"⟩,
   ⟨"SFO", "San Francisco", "SFO"⟩,
   ⟨"ORD", "Chicago", "CHI"⟩,
   ⟨"MIA", "Miami", "MIA"⟩,
   ⟨"DFW", "Dallas", "DFW"⟩,
   ⟨"BOS", "Boston", "BOS"⟩,
   ⟨"SEA", "Seattle", "SEA"⟩,
   ⟨"DEN", "Denver", "DEN"⟩,
   ⟨"ATL", "Atlanta", "ATL"⟩]

/-- `CONFIG.destinations`: the twelve international destinations. -/
def destinations : List Dest :=
  [⟨"PAR", "Paris", "France"⟩,
   ⟨"LON", "London", "UK"⟩,
   ⟨"TYO", "Tokyo", "Japan"⟩,
   ⟨"ROM", "Rome", "Italy"⟩,
   ⟨"BCN", "Barcelona", "Spain"⟩,
   ⟨"CUN", "Cancun", "Mexico"⟩,
   ⟨"LIS", "Lisbon", "Portugal"⟩,
   ⟨"DUB", "Dublin", "Ireland"⟩,
   ⟨"AMS", "Amsterdam", "Netherlands"⟩,
   ⟨"ICN", "Seoul", "South Korea"⟩,
   ⟨"BKK", "Bangkok", "Thailand"⟩,
   ⟨"SIN", "Singapore", "Singapore"⟩]

/-- `CONFIG.typicalPrices` (part_003 lines 50-54). -/
def typicalPrices : List (String × Int) :=
  [("PAR", 800), ("LON", 750), ("TYO", 1200), ("ROM", 850),
   ("BCN", 700), ("CUN", 400), ("LIS", 650), ("DUB", 600),
   ("AMS", 700), ("ICN", 1100), ("BKK", 900), ("SIN", 1000)]

/-- One row of `CONFIG.dayRotation` (part_003 lines 58-66). -/
structure Rotation where
  origins : List Nat
  destinations : List Nat
deriving DecidableEq

/-- `CONFIG.dayRotation`: day-of-week index (0 = Sunday) to the index lists
into `originCities` and `destinations`. -/
def dayRotation : Fin 7 → Rotation
  | 0 => ⟨[0, 1], [0, 1, 2, 3, 4, 5]⟩
  | 1 => ⟨[2, 3], [0, 1, 2, 3, 4, 5]⟩
  | 2 => ⟨[4, 5], [6, 7, 8, 9, 10, 11]⟩
  | 3 => ⟨[6, 7], [6, 7, 8, 9, 10, 11]⟩
  | 4 => ⟨[8, 9], [0, 1, 2, 3, 4, 5]⟩
  | 5 => ⟨[0, 1, 2], [6, 7, 8, 9, 10, 11]⟩
  | 6 => ⟨[0, 1, 2, 3, 4], [0, 1, 2, 5]⟩

/-- `rotation.origins.map(i => CONFIG.originCities[i])` from
`scrapeFlightDeals` (part_003 line 223); an out-of-range index yields
JavaScript `undefined`, modelled as `none`. -/
def todaysOrigins (day : Fin 7) : List (Option City) :=
  (dayRotation day).origins.map fun i => originCities.get? i

/-- `rotation.destinations.map(i => CONFIG.destinations[i])` from
`scrapeFlightDeals` (part_003 line 224). -/
def todaysDestinations (day : Fin 7) : List (Option Dest) :=
  (dayRotation day).destinations.map fun i => destinations.get? i

end FlightScraper

namespace FlightScraper

/-- Record pushed by `scrapeGoogleFlights` (part_003 lines 133-148). Merged
records from previous runs and Explore records may lack `percentOff` and
`typicalPrice`, so those fields are optional; `-` the sort and the post
renderer apply `|| 0` / truthiness to them. -/
structure FlightDeal where
  origin : String
  originName : String
  destination : String
  destinationName : String
  destinationCountry : String
  price : Int
  typicalPrice : Option Int
  percentOff : Option Int
  departDate : String
  returnDate : String
  tripLength : String
  source : String
  scrapedAt : String
  expediaLink : String
deriving DecidableEq

/-- `generateExpediaLink` of part_003 lines 73-85: manual interpolation,
leaving colons, commas and slashes of the leg parameters raw. The
`MM/dd/yyyy`-formatted dates are passed as strings. -/
def generateExpediaLink (origin dest departStr returnStr : String)
    (passengers : Nat := 1) : String :=
  let baseUrl := "https://www.expedia.com/Flights-Search"
  let leg1 := "from:" ++ origin ++ ",to:" ++ dest ++ ",departure:" ++ departStr ++ "TANYT"
  let leg2 := "from:" ++ dest ++ ",to:" ++ origin ++ ",departure:" ++ returnStr ++ "TANYT"
  let passengersParam := "adults:" ++ toString passengers
  let affcid := "US.DIRECT.PHG." ++ expediaPublisherId ++ "." ++ expediaAffiliateTag
  baseUrl ++ "?trip=roundtrip&leg1=" ++ leg1 ++ "&leg2=" ++ leg2 ++
    "&passengers=" ++ passengersParam ++ "&AFFCID=" ++ affcid

/-- The discount gate of `scrapeGoogleFlights` (part_003 line 132):
`percentOff > 15`. -/
def flightAdmit (percentOff : Int) : Bool :=
  15 < percentOff

/-- `CONFIG.typicalPrices[destination.code] || 800` (part_003 line 129). -/
def typicalFor (code : String) : Int :=
  ETravelogs.jsOrElseInt (typicalPrices.lookup code) 800

/-- Deal-building tail of `scrapeGoogleFlights` (part_003 lines 128-150),
given the lowest price extracted from the page (`none` when no price
element matched) and the formatted date strings. `if (lowestPrice)` treats
a zero price as falsy. -/
def scrapeGoogleFlights (origin : City) (destination : Dest)
    (lowestPrice : Option Int)
    (departStr returnStr departUS returnUS scrapedAt : String) :
    List FlightDeal :=
  match lowestPrice with
  | none => []
  | some lp =>
    if lp = 0 then []
    else
      let typicalPrice := typicalFor destination.code
      let percentOff := ETravelogs.jsRound (100 * (typicalPrice - lp)) typicalPrice
      if flightAdmit percentOff then
        [{ origin := origin.code
           originName := origin.name
           destination := destination.code
           destinationName := destination.name
           destinationCountry := destination.country
           price := lp
           typicalPrice := some typicalPrice
           percentOff := some percentOff
           departDate := departStr
           returnDate := returnStr
           tripLength := "7 days"
           source := "Google Flights"
           scrapedAt := scrapedAt
           expediaLink := generateExpediaLink origin.code destination.code departUS returnUS }]
      else []

/-- Composite key of part_003 line 319. -/
def flightKey (d : FlightDeal) : String :=
  d.origin ++ "-" ++ d.destination ++ "-" ++ toString d.price

/-- `deduplicateDeals` (part_003 lines 316-324). -/
def deduplicateDeals (deals : List FlightDeal) : List FlightDeal :=
  ETravelogs.dedupBy flightKey [] deals

/-- `(b.percentOff || 0) - (a.percentOff || 0)` as a sort precedence:
`a` may stand before `b` when `a`'s percent-off is at least `b`'s. -/
def byPercentOffDesc (a b : FlightDeal) : Bool :=
  b.percentOff.getD 0 ≤ a.percentOff.getD 0

/-- Sort-and-slice step of `scrapeFlightDeals` (part_003 lines 277-280):
`uniqueDeals.sort((a, b) => (b.percentOff || 0) - (a.percentOff || 0))`
followed by `.slice(0, 20)`, over the already-deduplicated list. -/
def sortAndTruncate (uniqueDeals : List FlightDeal) : List FlightDeal :=
  (uniqueDeals.mergeSort byPercentOffDesc).take 20

/-- Tail of `scrapeFlightDeals` (part_003 lines 276-280): deduplicate the
merged list, sort descending by percent-off and keep the first 20. -/
def selectTopDeals (allDeals : List FlightDeal) : List FlightDeal :=
  sortAndTruncate (deduplicateDeals allDeals)

/-- The object written by `saveDeals` (part_003 lines 335-339) and read back
by `loadExistingDeals`; an arbitrary file may be missing the `deals` field
(`data.deals || []`), hence the option. -/
structure SavedFile (α : Type) where
  generated : String
  count : Nat
  deals : Option (List α)
deriving DecidableEq

/-- `loadExistingDeals` (part_003 lines 291-311). The file system is an
explicit input: `none` when `flights.json` does not exist, `some (.error e)`
when reading or `JSON.parse` throws, `some (.ok data)` otherwise.
`parseDate` stands for `new Date(string).getTime()`, `none` for an invalid
date (whose `NaN` comparison is false); `now` is `Date.now()` in
milliseconds. -/
def loadExistingDeals (parseDate : String → Option Int)
    (file : Option (Except String (SavedFile FlightDeal))) (now : Int) :
    List FlightDeal :=
  match file with
  | none => []
  | some (Except.error _) => []
  | some (Except.ok data) =>
    let sevenDaysAgo := now - 7 * 24 * 60 * 60 * 1000
    (data.deals.getD []).filter fun deal =>
      match parseDate deal.scrapedAt with
      | some t => sevenDaysAgo < t
      | none => false

/-- `saveDeals` (part_003 lines 329-346): the output object written to
`flights.json`, with `generated` passed in for `new Date().toISOString()`. -/
def saveDeals (deals : List FlightDeal) (generated : String) :
    SavedFile FlightDeal :=
  { generated := generated
    count := deals.length
    deals := some deals }

end FlightScraper

namespace HotelScraper

/-- Entry of `CONFIG.destinations` (part_004 lines 20-41). -/
structure HotelDest where
  name : String
  country : String
  searchTerm : String
deriving DecidableEq

/-- `CONFIG.destinations`: the twenty hotel destinations. -/
def destinations : List HotelDest :=
  [⟨"Paris", "France", "Paris, France"⟩,
   ⟨"London", "UK", "London, England"⟩,
   ⟨"Tokyo", "Japan", "Tokyo, Japan"⟩,
   ⟨"Rome", "Italy", "Rome, Italy"⟩,
   ⟨"Barcelona", "Spain", "Barcelona, Spain"⟩,
   ⟨"Cancun", "Mexico", "Cancun, Mexico"⟩,
   ⟨"New York", "USA", "New York City"⟩,
   ⟨"Las Vegas", "USA", "Las Vegas"⟩,
   ⟨"Miami", "USA", "Miami, Florida"⟩,
   ⟨"Honolulu", "USA", "Honolulu, Hawaii"⟩,
   ⟨"San Francisco", "USA", "San Francisco"⟩,
   ⟨"Los Angeles", "USA", "Los Angeles"⟩,
   ⟨"Amsterdam", "Netherlands", "Amsterdam, Netherlands"⟩,
   ⟨"Dublin", "Ireland", "Dublin, Ireland"⟩,
   ⟨"Lisbon", "Portugal", "Lisbon, Portugal"⟩,
   ⟨"Bangkok", "Thailand", "Bangkok, Thailand"⟩,
   ⟨"Singapore", "Singapore", "Singapore"⟩,
   ⟨"Bali", "Indonesia", "Bali, Indonesia"⟩,
   ⟨"Phuket", "Thailand", "Phuket, Thailand"⟩,
   ⟨"Maldives", "Maldives", "Maldives"⟩]

/-- `CONFIG.minDiscountPercent` (part_004 line 44). -/
def minDiscountPercent : Int := 25

/-- `CONFIG.dayRotation` (part_004 lines 48-56): day-of-week index
(0 = Sunday) to the index list into `destinations`. -/
def dayRotation : Fin 7 → List Nat
  | 0 => [0, 1, 2, 3, 4, 5, 6]
  | 1 => [7, 8, 9, 10, 11, 12]
  | 2 => [13, 14, 15, 16, 17]
  | 3 => [18, 19, 0, 1, 2]
  | 4 => [3, 4, 5, 6, 7, 8]
  | 5 => [9, 10, 11, 12, 13, 14]
  | 6 => [0, 1, 2, 15, 16, 17, 18, 19]

/-- `rotation.map(i => CONFIG.destinations[i])` from `scrapeHotelDeals`
(part_004 line 230); an out-of-range index yields JavaScript `undefined`,
modelled as `none`. -/
def todaysDestinations (day : Fin 7) : List (Option HotelDest) :=
  (dayRotation day).map fun i => destinations.get? i

/-- Record pushed by `scrapeGoogleHotels` (part_004 lines 141-156). Records
merged from previous runs or coming from the Kayak aggregator may lack
fields, hence the options. A rating is the one-decimal regex capture
`(\d\.\d)` scaled by ten (so `4.6` is carried as `46`). -/
structure HotelDeal where
  hotelName : String
  location : String
  country : String
  pricePerNight : Int
  originalPrice : Option Int
  percentOff : Option Int
  rating : Option Nat
  checkinDate : String
  checkoutDate : String
  nights : Nat
  source : String
  scrapedAt : String
  expediaSearchLink : String
  expediaDirectLink : Option String
deriving DecidableEq

/-- The discount gate of `scrapeGoogleHotels` (part_004 line 140):
`percentOff >= CONFIG.minDiscountPercent || (currentPrice < 150 &&
ratingMatch && parseFloat(ratingMatch[1]) >= 4.0)`, with the rating in
tenths. -/
def hotelAdmit (percentOff currentPrice : Int) (rating : Option Nat) : Bool :=
  (minDiscountPercent ≤ percentOff) ||
    (currentPrice < 150 &&
      match rating with
      | some r => 40 ≤ r
      | none => false)

/-- The regex extractions of one hotel card (part_004 lines 114-128): the
first `$N` token, the `Usually $N` and `was $N` tokens, the rating capture in
tenths, and the heading text. -/
structure HotelCard where
  priceTok : Option Int
  usuallyTok : Option Int
  wasTok : Option Int
  ratingTok : Option Nat
  nameTok : Option String
deriving DecidableEq

/-- `generateExpediaHotelLink` (part_004 lines 62-70), with the
`MM/dd/yyyy`-formatted dates passed as strings. -/
def generateExpediaHotelLink (destEncoded checkinStr checkoutStr : String) :
    String :=
  let baseUrl := "https://www.expedia.com/Hotel-Search"
  let affcid := "US.DIRECT.PHG." ++ FlightScraper.expediaPublisherId ++ "." ++
    FlightScraper.expediaAffiliateTag
  baseUrl ++ "?destination=" ++ destEncoded ++ "&startDate=" ++ checkinStr ++
    "&endDate=" ++ checkoutStr ++ "&rooms=1&adults=2&AFFCID=" ++ affcid

/-- Per-card body of the loop in `scrapeGoogleHotels` (part_004 lines
130-158), from the regex extractions to the pushed record. `originalPrice`
prefers the `Usually` token over the `was` token; the percent-off is zero
unless the original price is truthy and exceeds the current price; the card
is kept when `hotelAdmit` accepts it. The affiliate links are passed in
already built. -/
def processHotelCard (destination : HotelDest) (card : HotelCard)
    (checkinStr checkoutStr scrapedAt searchLink directLink : String) :
    List HotelDeal :=
  match card.priceTok with
  | none => []
  | some currentPrice =>
    let originalPrice :=
      match card.usuallyTok with
      | some u => some u
      | none => card.wasTok
    let percentOff : Int :=
      match originalPrice with
      | some op =>
        if op ≠ 0 ∧ currentPrice < op then
          ETravelogs.jsRound (100 * (op - currentPrice)) op
        else 0
      | none => 0
    if hotelAdmit percentOff currentPrice card.ratingTok then
      [{ hotelName := (card.nameTok.getD ("Hotel in " ++ destination.name))
         location := destination.name
         country := destination.country
         pricePerNight := currentPrice
         originalPrice := originalPrice
         percentOff := some percentOff
         rating := card.ratingTok
         checkinDate := checkinStr
         checkoutDate := checkoutStr
         nights := 3
         source := "Google Hotels"
         scrapedAt := scrapedAt
         expediaSearchLink := searchLink
         expediaDirectLink := match card.nameTok with
           | some _ => some directLink
           | none => none }]
    else []

/-- Composite key of part_004 line 319. -/
def hotelKey (d : HotelDeal) : String :=
  d.hotelName ++ "-" ++ d.location ++ "-" ++ toString d.pricePerNight

/-- `deduplicateDeals` (part_004 lines 316-324). -/
def deduplicateDeals (deals : List HotelDeal) : List HotelDeal :=
  ETravelogs.dedupBy hotelKey [] deals

/-- `(b.percentOff || 0) - (a.percentOff || 0)` as a sort precedence. -/
def byPercentOffDesc (a b : HotelDeal) : Bool :=
  b.percentOff.getD 0 ≤ a.percentOff.getD 0

/-- Sort-and-slice step of `scrapeHotelDeals` (part_004 lines 277-280),
over the already-deduplicated list. -/
def sortAndTruncate (uniqueDeals : List HotelDeal) : List HotelDeal :=
  (uniqueDeals.mergeSort byPercentOffDesc).take 20

/-- Tail of `scrapeHotelDeals` (part_004 lines 276-280): deduplicate the
merged list, sort descending by percent-off and keep the first 20. -/
def selectTopDeals (allDeals : List HotelDeal) : List HotelDeal :=
  sortAndTruncate (deduplicateDeals allDeals)

/-- `loadExistingDeals` (part_004 lines 291-311), the same shape as the
flight version but over `hotels.json`. -/
def loadExistingDeals (parseDate : String → Option Int)
    (file : Option (Except String (FlightScraper.SavedFile HotelDeal)))
    (now : Int) : List HotelDeal :=
  match file with
  | none => []
  | some (Except.error _) => []
  | some (Except.ok data) =>
    let sevenDaysAgo := now - 7 * 24 * 60 * 60 * 1000
    (data.deals.getD []).filter fun deal =>
      match parseDate deal.scrapedAt with
      | some t => sevenDaysAgo < t
      | none => false

/-- `saveDeals` (part_004 lines 329-346). -/
def saveDeals (deals : List HotelDeal) (generated : String) :
    FlightScraper.SavedFile HotelDeal :=
  { generated := generated
    count := deals.length
    deals := some deals }

end HotelScraper

namespace FlightDealsEncoder

/-- Uppercase hexadecimal digit of a value below 16. -/
def hexDigitUpper (n : Nat) : Char :=
  if n < 10 then Char.ofNat (48 + n) else Char.ofNat (55 + n)

/-- One character of the WHATWG `application/x-www-form-urlencoded`
serializer used by Node's `URLSearchParams.toString()`: ASCII alphanumerics
and `*`, `-`, `.`, `_` stay, a space becomes `+`, anything else becomes a
percent-escaped byte. Faithful for ASCII inputs, which is all
`generateExpediaLink` of src/scrapers/flight-deals.js passes. -/
def formUrlEncodeChar (c : Char) : String :=
  if c = ' ' then "+"
  else if c.isAlphanum || c = '*' || c = '-' || c = '.' || c = '_' then
    String.singleton c
  else
    "%" ++ String.singleton (hexDigitUpper (c.toNat / 16)) ++
      String.singleton (hexDigitUpper (c.toNat % 16))

/-- `application/x-www-form-urlencoded` over a whole string. -/
def formUrlEncode (s : String) : String :=
  String.join (s.data.map formUrlEncodeChar)

/-- `URLSearchParams(pairs).toString()`: each key and value encoded, pairs
joined with `=` and `&`. -/
def urlSearchParamsToString (pairs : List (String × String)) : String :=
  String.intercalate "&" (pairs.map fun p => formUrlEncode p.1 ++ "=" ++ formUrlEncode p.2)

/-- `generateExpediaLink` of src/scrapers/flight-deals.js lines 60-70: the
`URLSearchParams`-based implementation of the affiliate link, over the same
`MM/dd/yyyy`-formatted date strings as the manual version. -/
def generateExpediaLink (origin dest departStr returnStr : String)
    (passengers : Nat := 1) : String :=
  let baseUrl := "https://www.expedia.com/Flights-Search"
  let params :=
    [("trip", "roundtrip"),
     ("leg1", "from:" ++ origin ++ ",to:" ++ dest ++ ",departure:" ++ departStr ++ "TANYT"),
     ("leg2", "from:" ++ dest ++ ",to:" ++ origin ++ ",departure:" ++ returnStr ++ "TANYT"),
     ("passengers", "adults:" ++ toString passengers),
     ("AFFCID", "US.DIRECT.PHG." ++ FlightScraper.expediaPublisherId ++ "." ++
       FlightScraper.expediaAffiliateTag)]
  baseUrl ++ "?" ++ urlSearchParamsToString params

end FlightDealsEncoder

namespace PostGenerator

/-- Result record of `generateFlightDealsPost` / `generateHotelDealsPost`
(src/wordpress/post-generator.js lines 98-105 and 173-180). -/
structure Post where
  title : String
  slug : String
  content : String
  excerpt : String
  categories : List String
  tags : List String
deriving DecidableEq

/-- JavaScript string interpolation of a possibly-undefined number. -/
def jsShowOptInt (o : Option Int) : String :=
  match o with
  | some v => toString v
  | none => "undefined"

/-- The fallback paragraph appended when the deal list is empty
(src/wordpress/post-generator.js lines 46 and 127). -/
def fallbackParagraph : String :=
  "<p>Check back later - we're still searching for today's best deals!</p>"

/-- Leading literal of the flight post's content, up to the interpolated
date (post-generator.js line 37). -/
def flightIntroPre : String :=
  "\n<p>Looking for unbeatable flight deals today? Here are the top offers verified as of "

/-- Literal between the interpolated date and the deal section of the
flight post (post-generator.js lines 37-43). -/
def flightIntroPost : String :=
  ":</p>\n\n<!-- wp:heading \x7b\"level\":2\x7d -->\n<h2>🔥 Today's Top Flight Deals</h2>\n<!-- /wp:heading -->\n\n"

/-- Emoji chosen per deal index (post-generator.js line 49). -/
def flightEmoji (index : Nat) : String :=
  if index = 0 then "🏆" else if index < 3 then "✈️" else "🎫"

/-- One flight deal card (post-generator.js lines 51-69). -/
def flightCard (index : Nat) (deal : FlightScraper.FlightDeal) : String :=
  let emoji := flightEmoji index
  let discountSpan :=
    if 0 < deal.percentOff.getD 0 then
      "<span style=\"color: green;\">(" ++ jsShowOptInt deal.percentOff ++
        "% off typical $" ++ jsShowOptInt deal.typicalPrice ++ ")</span>"
    else ""
  "\n<!-- wp:group \x7b\"className\":\"deal-card\"\x7d -->\n<div class=\"wp-block-group deal-card\" style=\"background: #f7fafc; padding: 20px; border-radius: 8px; margin-bottom: 20px;\">\n\n<h3>" ++
    emoji ++ " " ++ deal.originName ++ " → " ++ deal.destinationName ++ ", " ++
    deal.destinationCountry ++ "</h3>\n\n<p><strong>💰 Price: $" ++
    toString deal.price ++ "</strong> " ++ discountSpan ++
    "</p>\n\n<p>📅 Sample dates: " ++ deal.departDate ++ " to " ++
    deal.returnDate ++ " (" ++ deal.tripLength ++
    ")</p>\n\n<p>\n  <a href=\"" ++ deal.expediaLink ++
    "\" target=\"_blank\" rel=\"nofollow sponsored\" style=\"display: inline-block; padding: 10px 20px; background: #e53e3e; color: white; text-decoration: none; border-radius: 5px; font-weight: bold;\">\n    Book on Expedia →\n  </a>\n</p>\n\n</div>\n<!-- /wp:group -->\n"

/-- Literal after the deal section of the flight post, up to the second
interpolated date (post-generator.js lines 73-95). -/
def flightFooterPre : String :=
  "\n<!-- wp:heading \x7b\"level\":2\x7d -->\n<h2>💡 Tips to Get These Prices</h2>\n<!-- /wp:heading -->\n\n<ul>\n  <li>Prices change frequently - book quickly when you see a deal</li>\n  <li>Use incognito mode to avoid price tracking</li>\n  <li>Be flexible with dates (±3 days can save hundreds)</li>\n  <li>Check our <a href=\"https://etravelogs.com/miles-points-vs-cash-calculator/\">Miles vs Cash Calculator</a> to see if points are better</li>\n</ul>\n\n<!-- wp:heading \x7b\"level\":2\x7d -->\n<h2>🧮 Should You Use Miles Instead?</h2>\n<!-- /wp:heading -->\n\n<p>Before booking with cash, check if your miles offer better value:</p>\n\n[miles_calculator]\n\n<p>Subscribe to our newsletter to get deals like these delivered to your inbox!</p>\n\n<p><em>Deals found on "

/-- Closing literal of the flight post's content. -/
def flightFooterPost : String :=
  ". Prices subject to change. Some links are affiliate links.</em></p>\n"

/-- Deal section of the flight post: the fallback paragraph when there are
no deals, else the concatenated cards (post-generator.js lines 45-71). -/
def flightDealsSection (deals : List FlightScraper.FlightDeal) : String :=
  if deals.isEmpty then fallbackParagraph
  else String.join (deals.enum.map fun p => flightCard p.1 p.2)

/-- Content of the flight post: intro, deal section, footer, with the
`MMMM d, yyyy`-formatted date passed as `dateStr`. -/
def flightContent (deals : List FlightScraper.FlightDeal) (dateStr : String) :
    String :=
  flightIntroPre ++ dateStr ++ flightIntroPost ++ flightDealsSection deals ++
    flightFooterPre ++ dateStr ++ flightFooterPost

/-- JavaScript `opt || dflt` over an optional string (an empty string is
falsy). -/
def jsOrElseStr (o : Option String) (dflt : String) : String :=
  match o with
  | some s => if s = "" then dflt else s
  | none => dflt

/-- `generateFlightDealsPost` (post-generator.js lines 29-106) with the two
`date-fns` renderings of the run date passed as strings. -/
def generateFlightDealsPost (deals : List FlightScraper.FlightDeal)
    (dateStr dateIso : String) : Post :=
  { title := "Today's Best Flight Deals – " ++ dateStr
    slug := "todays-best-flight-deals-" ++ dateIso
    content := flightContent deals dateStr
    excerpt := "Today's verified flight deals from " ++ toString deals.length ++
      " routes. Best deal: " ++
      jsOrElseStr (deals.head?.map (·.originName)) "Check inside" ++ " to " ++
      jsOrElseStr (deals.head?.map (·.destinationName)) "various" ++ " for $" ++
      (match deals.head? with
       | some d => if d.price = 0 then "TBD" else toString d.price
       | none => "TBD") ++ "."
    categories := ["Flight Deals", "Daily Deals"]
    tags := (ETravelogs.keepFirstByKey id
      (deals.map fun d => d.destinationName)).take 5 }

/-- Leading literal of the hotel post's content (post-generator.js line
118). -/
def hotelIntroPre : String :=
  "\n<p>Looking for unbeatable hotel deals today? Here are the top properties with at least 25% off, verified as of "

/-- Literal between the interpolated date and the deal section of the hotel
post (post-generator.js lines 118-124). -/
def hotelIntroPost : String :=
  ":</p>\n\n<!-- wp:heading \x7b\"level\":2\x7d -->\n<h2>🏨 Today's Top Hotel Deals</h2>\n<!-- /wp:heading -->\n\n"

/-- Emoji chosen per hotel deal index (post-generator.js line 130). -/
def hotelEmoji (index : Nat) : String :=
  if index = 0 then "🏆" else if index < 3 then "🏨" else "🛏️"

/-- Star string of a hotel deal (post-generator.js line 131): with a truthy
rating, the star repeated `min (floor rating) 5` times; the rating is
carried in tenths. -/
def hotelStars (rating : Option Nat) : String :=
  match rating with
  | some r => if r ≠ 0 then String.join (List.replicate (min (r / 10) 5) "⭐") else ""
  | none => ""

/-- One hotel deal card (post-generator.js lines 133-152). -/
def hotelCard (index : Nat) (deal : HotelScraper.HotelDeal) : String :=
  let emoji := hotelEmoji index
  let stars := hotelStars deal.rating
  let discountSpan :=
    if 0 < deal.percentOff.getD 0 then
      "<span style=\"color: green;\">(" ++ jsShowOptInt deal.percentOff ++
        "% off " ++
        (match deal.originalPrice with
         | some op => if op = 0 then "regular price" else "$" ++ toString op
         | none => "regular price") ++ ")</span>"
    else ""
  "\n<!-- wp:group \x7b\"className\":\"deal-card\"\x7d -->\n<div class=\"wp-block-group deal-card\" style=\"background: #f7fafc; padding: 20px; border-radius: 8px; margin-bottom: 20px;\">\n\n<h3>" ++
    emoji ++ " " ++ deal.hotelName ++ "</h3>\n<p>📍 " ++ deal.location ++ ", " ++
    deal.country ++ " " ++ stars ++ "</p>\n\n<p><strong>💰 $" ++
    toString deal.pricePerNight ++ "/night</strong> " ++ discountSpan ++
    "</p>\n\n<p>📅 Sample stay: " ++ deal.checkinDate ++ " - " ++
    deal.checkoutDate ++ " (" ++ toString deal.nights ++
    " nights)</p>\n\n<p>\n  <a href=\"" ++ deal.expediaSearchLink ++
    "\" target=\"_blank\" rel=\"nofollow sponsored\" style=\"display: inline-block; padding: 10px 20px; background: #2b6cb0; color: white; text-decoration: none; border-radius: 5px; font-weight: bold;\">\n    Check Availability →\n  </a>\n</p>\n\n</div>\n<!-- /wp:group -->\n"

/-- Literal after the deal section of the hotel post, up to the second
interpolated date (post-generator.js lines 156-170). -/
def hotelFooterPre : String :=
  "\n<!-- wp:heading \x7b\"level\":2\x7d -->\n<h2>💡 Hotel Booking Tips</h2>\n<!-- /wp:heading -->\n\n<ul>\n  <li>Book directly sometimes offers perks (breakfast, upgrades)</li>\n  <li>Check if your credit card offers hotel status matches</li>\n  <li>Use our <a href=\"https://etravelogs.com/miles-points-vs-cash-calculator/\">Calculator</a> to value hotel points</li>\n  <li>Look for \"member prices\" - often requires free signup</li>\n</ul>\n\n<p>Subscribe to our newsletter for weekly hotel deals!</p>\n\n<p><em>Deals found on "

/-- Closing literal of the hotel post's content. -/
def hotelFooterPost : String :=
  ". Prices subject to change. Some links are affiliate links.</em></p>\n"

/-- Deal section of the hotel post (post-generator.js lines 126-154). -/
def hotelDealsSection (deals : List HotelScraper.HotelDeal) : String :=
  if deals.isEmpty then fallbackParagraph
  else String.join (deals.enum.map fun p => hotelCard p.1 p.2)

/-- Content of the hotel post. -/
def hotelContent (deals : List HotelScraper.HotelDeal) (dateStr : String) :
    String :=
  hotelIntroPre ++ dateStr ++ hotelIntroPost ++ hotelDealsSection deals ++
    hotelFooterPre ++ dateStr ++ hotelFooterPost

/-- `generateHotelDealsPost` (post-generator.js lines 111-181). -/
def generateHotelDealsPost (deals : List HotelScraper.HotelDeal)
    (dateStr dateIso : String) : Post :=
  { title := "Today's Best Hotel Deals – " ++ dateStr
    slug := "todays-best-hotel-deals-" ++ dateIso
    content := hotelContent deals dateStr
    excerpt := "Today's verified hotel deals in " ++ toString deals.length ++
      " destinations. Best deal: " ++
      jsOrElseStr (deals.head?.map (·.hotelName)) "Various" ++ " for $" ++
      (match deals.head? with
       | some d => if d.pricePerNight = 0 then "TBD" else toString d.pricePerNight
       | none => "TBD") ++ "/night."
    categories := ["Hotel Deals", "Daily Deals"]
    tags := (ETravelogs.keepFirstByKey id
      (deals.map fun d => d.location)).take 5 }

end PostGenerator

/-- Witness instantiation of C6: scraping JFK to Paris at a lowest price of
600 dollars emits this record. -/
def sampleParisDeal : FlightScraper.FlightDeal :=
  { origin := "JFK"
    originName := "New York (JFK)"
    destination := "PAR"
    destinationName := "Paris"
    destinationCountry := "France"
    price := 600
    typicalPrice := some 800
    percentOff := some 25
    departDate := "2026-06-15"
    returnDate := "2026-06-22"
    tripLength := "7 days"
    source := "Google Flights"
    scrapedAt := "t"
    expediaLink := FlightScraper.generateExpediaLink "JFK" "PAR"
      "06/15/2026" "06/22/2026" }

namespace ETravelogs

theorem dedupBy_eq_keepFirst_filter (key : α → String) (seen : List String)
    (l : List α) :
    dedupBy key seen l =
      keepFirstByKey key (l.filter fun d => !(seen.contains (key d))) := by
  induction l generalizing seen with
  | nil => simp [dedupBy, keepFirstByKey]
  | cons d rest ih =>
    by_cases h : seen.contains (key d)
    · rw [dedupBy, if_pos h, List.filter_cons, if_neg (by simpa using h), ih]
    · rw [dedupBy, if_neg h, List.filter_cons, if_pos (by simpa using h)]
      simp only [keepFirstByKey]
      rw [ih (key d :: seen), List.filter_filter]
      have hfun : (fun e => !((key d :: seen).contains (key e))) =
          (fun a : α => (!(key a == key d) && !(seen.contains (key a)))) := by
        funext e
        simp only [List.contains_cons, Bool.not_or]
      rw [hfun]

theorem dedupBy_eq_keepFirst (key : α → String) (l : List α) :
    dedupBy key [] l = keepFirstByKey key l := by
  rw [dedupBy_eq_keepFirst_filter]
  congr 1
  rw [show (fun d => !(List.contains [] (key d))) = fun _ : α => true by
    funext d; simp [List.contains]]
  exact List.filter_true l

theorem keepFirstByKey_sublist (key : α → String) (l : List α) :
    (keepFirstByKey key l).Sublist l := by
  induction l using keepFirstByKey.induct key with
  | case1 => simp [keepFirstByKey]
  | case2 d rest ih =>
    simp only [keepFirstByKey]
    exact (ih.trans (List.filter_sublist rest)).cons₂ d

end ETravelogs

namespace ETravelogs

theorem pairIn_append (a b : Char) :
    ∀ x y : List Char,
      pairIn a b (x ++ y) =
        (pairIn a b x || pairIn a b y ||
          (x.getLast? == some a && y.head? == some b))
  | [], y => by simp [pairIn]
  | [c], y => by
    cases y with
    | nil => simp [pairIn]
    | cons d y' => simp [pairIn, Bool.or_comm]
  | c :: c' :: x'', y => by
    have ih := pairIn_append a b (c' :: x'') y
    simp only [List.cons_append] at ih ⊢
    simp only [pairIn, ih, List.getLast?_cons_cons, Bool.or_assoc]

theorem pairIn_eq_true_iff (a b : Char) :
    ∀ l : List Char, pairIn a b l = true ↔ [a, b] <:+: l
  | [] => by
    simp only [pairIn]
    exact iff_of_false (by simp) fun h => absurd (List.infix_nil.mp h) (by simp)
  | [c] => by
    simp only [pairIn]
    exact iff_of_false (by simp) fun h => absurd h.length_le (by simp)
  | c :: c' :: rest => by
    have ih := pairIn_eq_true_iff a b (c' :: rest)
    simp only [pairIn, Bool.or_eq_true, Bool.and_eq_true, beq_iff_eq, ih,
      List.infix_cons_iff (a := c), List.cons_prefix_cons, List.nil_prefix,
      and_true]
    constructor
    · rintro (⟨h1, h2⟩ | h)
      · exact Or.inl ⟨h1.symm, h2.symm⟩
      · exact Or.inr h
    · rintro (⟨h1, h2⟩ | h)
      · exact Or.inl ⟨h1.symm, h2.symm⟩
      · exact Or.inr h

theorem pairIn_false_of_not_mem (a b : Char) (l : List Char) (h : b ∉ l) :
    pairIn a b l = false := by
  rw [Bool.eq_false_iff]
  intro hc
  exact h (List.Sublist.mem (by simp) ((pairIn_eq_true_iff a b l).mp hc).sublist)

end ETravelogs

namespace ETravelogs

theorem pairIn_append_iff (a b : Char) (x y : List Char) :
    pairIn a b (x ++ y) = true ↔
      pairIn a b x = true ∨ pairIn a b y = true ∨
        (x.getLast? = some a ∧ y.head? = some b) := by
  rw [pairIn_append]
  simp [Bool.or_eq_true, Bool.and_eq_true, beq_iff_eq, or_assoc]

/-- Both generated contents with an empty deal list have the shape
`A ++ D ++ P1 ++ F ++ P2 ++ D ++ P3` with `D` the interpolated date and the
rest fixed literals; a character pair occurs nowhere in such a string when
it occurs in none of the literals, its second character does not occur in
`D`, and no boundary can host it. -/
theorem pairIn_template_false (a b : Char) (A P1 F P2 P3 D : List Char)
    (hA : pairIn a b A = false) (hP1 : pairIn a b P1 = false)
    (hF : pairIn a b F = false) (hP2 : pairIn a b P2 = false)
    (hP3 : pairIn a b P3 = false) (hD : b ∉ D)
    (hAlast : A.getLast? ≠ some a)
    (hP1ne : P1 ≠ []) (hP1head : P1.head? ≠ some b)
    (hP1last : P1.getLast? ≠ some a)
    (hFlast : F.getLast? ≠ some a)
    (hP2last : P2.getLast? ≠ some a)
    (hP3head : P3.head? ≠ some b) :
    pairIn a b (A ++ (D ++ (P1 ++ (F ++ (P2 ++ (D ++ P3)))))) = false := by
  have hDpair : pairIn a b D = false := pairIn_false_of_not_mem a b D hD
  have hDhead : ∀ z : List Char, z.head? ≠ some b → (D ++ z).head? ≠ some b := by
    intro z hz
    rw [List.head?_append]
    cases hcd : D.head? with
    | none => simpa [Option.or] using hz
    | some c =>
      simp only [Option.or]
      intro hcb
      apply hD
      rw [show c = b by simpa using hcb] at hcd
      exact List.mem_of_mem_head? (by rw [hcd]; simp)
  have hP1headApp : ∀ z : List Char, (P1 ++ z).head? ≠ some b := by
    intro z
    rw [List.head?_append]
    cases hp : P1.head? with
    | none => exact absurd (List.head?_eq_none_iff.mp hp) hP1ne
    | some c => simpa [Option.or, hp] using hP1head
  rw [Bool.eq_false_iff]
  intro hc
  rcases (pairIn_append_iff a b _ _).mp hc with h | h | ⟨h1, _⟩
  · exact absurd h (by rw [hA]; simp)
  rotate_left
  · exact hAlast h1
  rcases (pairIn_append_iff a b _ _).mp h with h | h | ⟨_, h2⟩
  · exact absurd h (by rw [hDpair]; simp)
  rotate_left
  · exact hP1headApp _ h2
  rcases (pairIn_append_iff a b _ _).mp h with h | h | ⟨h1, _⟩
  · exact absurd h (by rw [hP1]; simp)
  rotate_left
  · exact hP1last h1
  rcases (pairIn_append_iff a b _ _).mp h with h | h | ⟨h1, _⟩
  · exact absurd h (by rw [hF]; simp)
  rotate_left
  · exact hFlast h1
  rcases (pairIn_append_iff a b _ _).mp h with h | h | ⟨h1, _⟩
  · exact absurd h (by rw [hP2]; simp)
  rotate_left
  · exact hP2last h1
  rcases (pairIn_append_iff a b _ _).mp h with h | h | ⟨_, h2⟩
  · exact absurd h (by rw [hDpair]; simp)
  · exact absurd h (by rw [hP3]; simp)
  · exact hP3head h2

/-- Sortedness of `mergeSort` under a descending integer measure. -/
theorem sorted_mergeSort_desc (f : α → Int) (l : List α) :
    (l.mergeSort fun a b => decide (f b ≤ f a)).Sorted
      (fun a b => f b ≤ f a) := by
  have h := @List.sorted_mergeSort α (fun a b : α => decide (f b ≤ f a))
    (fun a b c hab hbc => by
      simp only [decide_eq_true_eq] at hab hbc ⊢
      exact le_trans hbc hab)
    (fun a b => by
      simp only [Bool.or_eq_true, decide_eq_true_eq]
      exact le_total (f b) (f a))
    l
  exact h.imp fun hab => by simpa using hab

end ETravelogs

/-- C1: the flight discount filter excludes a record with percentOff exactly
15 and includes one with percentOff 16 (the boundary at 15 is exclusive,
part_003 line 132); the hotel discount filter includes every record with
percentOff exactly 25, whatever its price and rating (the boundary at 25 is
inclusive, part_004 line 140). -/
theorem claim_C1_discount_boundaries :
    FlightScraper.flightAdmit 15 = false ∧
    FlightScraper.flightAdmit 16 = true ∧
    ∀ (price : Int) (rating : Option Nat),
      HotelScraper.hotelAdmit 25 price rating = true := by
  refine ⟨by decide, by decide, fun price rating => ?_⟩
  simp [HotelScraper.hotelAdmit, HotelScraper.minDiscountPercent]

/-- C2: both `deduplicateDeals` implementations return exactly the
first-occurrence selection of their composite key, in original order — a
sublist of the input in which every later record sharing a key with an
earlier one is dropped and each first-seen record is retained unchanged. -/
theorem claim_C2_dedup_keeps_first_occurrence :
    (∀ l : List FlightScraper.FlightDeal,
      FlightScraper.deduplicateDeals l =
        ETravelogs.keepFirstByKey FlightScraper.flightKey l ∧
      (FlightScraper.deduplicateDeals l).Sublist l) ∧
    (∀ l : List HotelScraper.HotelDeal,
      HotelScraper.deduplicateDeals l =
        ETravelogs.keepFirstByKey HotelScraper.hotelKey l ∧
      (HotelScraper.deduplicateDeals l).Sublist l) := by
  constructor
  · intro l
    have h : FlightScraper.deduplicateDeals l =
        ETravelogs.keepFirstByKey FlightScraper.flightKey l :=
      ETravelogs.dedupBy_eq_keepFirst FlightScraper.flightKey l
    exact ⟨h, h ▸ ETravelogs.keepFirstByKey_sublist _ l⟩
  · intro l
    have h : HotelScraper.deduplicateDeals l =
        ETravelogs.keepFirstByKey HotelScraper.hotelKey l :=
      ETravelogs.dedupBy_eq_keepFirst HotelScraper.hotelKey l
    exact ⟨h, h ▸ ETravelogs.keepFirstByKey_sublist _ l⟩

/-- C3: for every deduplicated deal list, the scrapers' sort-and-slice step
returns a permutation of it, sorted so that percent-off (a missing field
counting as 0) is non-increasing, truncated to the first 20 elements; in
particular the result, and hence the scraper's returned list, never has
more than 20 deals. -/
theorem claim_C3_sort_and_truncate :
    (∀ u : List FlightScraper.FlightDeal,
      (∃ s : List FlightScraper.FlightDeal,
        s.Perm u ∧
        s.Sorted (fun a b => b.percentOff.getD 0 ≤ a.percentOff.getD 0) ∧
        FlightScraper.sortAndTruncate u = s.take 20) ∧
      (FlightScraper.sortAndTruncate u).Sorted
        (fun a b => b.percentOff.getD 0 ≤ a.percentOff.getD 0) ∧
      (FlightScraper.sortAndTruncate u).length ≤ 20) ∧
    (∀ u : List HotelScraper.HotelDeal,
      (∃ s : List HotelScraper.HotelDeal,
        s.Perm u ∧
        s.Sorted (fun a b => b.percentOff.getD 0 ≤ a.percentOff.getD 0) ∧
        HotelScraper.sortAndTruncate u = s.take 20) ∧
      (HotelScraper.sortAndTruncate u).Sorted
        (fun a b => b.percentOff.getD 0 ≤ a.percentOff.getD 0) ∧
      (HotelScraper.sortAndTruncate u).length ≤ 20) ∧
    (∀ l : List FlightScraper.FlightDeal,
      (FlightScraper.selectTopDeals l).length ≤ 20) ∧
    (∀ l : List HotelScraper.HotelDeal,
      (HotelScraper.selectTopDeals l).length ≤ 20) := by
  have hf : ∀ u : List FlightScraper.FlightDeal,
      (u.mergeSort FlightScraper.byPercentOffDesc).Sorted
        (fun a b => b.percentOff.getD 0 ≤ a.percentOff.getD 0) := fun u =>
    ETravelogs.sorted_mergeSort_desc (fun d => d.percentOff.getD 0) u
  have hh : ∀ u : List HotelScraper.HotelDeal,
      (u.mergeSort HotelScraper.byPercentOffDesc).Sorted
        (fun a b => b.percentOff.getD 0 ≤ a.percentOff.getD 0) := fun u =>
    ETravelogs.sorted_mergeSort_desc (fun d => d.percentOff.getD 0) u
  refine ⟨fun u => ⟨⟨u.mergeSort FlightScraper.byPercentOffDesc,
      List.mergeSort_perm u _, hf u, rfl⟩, ?_, List.length_take_le _ _⟩,
    fun u => ⟨⟨u.mergeSort HotelScraper.byPercentOffDesc,
      List.mergeSort_perm u _, hh u, rfl⟩, ?_, List.length_take_le _ _⟩,
    fun l => List.length_take_le _ _, fun l => List.length_take_le _ _⟩
  · exact List.Pairwise.sublist (List.take_sublist _ _) (hf u)
  · exact List.Pairwise.sublist (List.take_sublist _ _) (hh u)

/-- C4: for every day index 0-6 the rotation lookup is a pure function of
the index (determinism is definitional in the embedding), every stored
index is within bounds of the configured origin and destination lists, and
mapping the indices to cities yields no `undefined` entry. -/
theorem claim_C4_rotation_indices_in_bounds :
    ∀ day : Fin 7,
      ((FlightScraper.dayRotation day).origins.all
        fun i => decide (i < FlightScraper.originCities.length)) = true ∧
      ((FlightScraper.dayRotation day).destinations.all
        fun i => decide (i < FlightScraper.destinations.length)) = true ∧
      ((HotelScraper.dayRotation day).all
        fun i => decide (i < HotelScraper.destinations.length)) = true ∧
      ((FlightScraper.todaysOrigins day).all fun o => o.isSome) = true ∧
      ((FlightScraper.todaysDestinations day).all fun o => o.isSome) = true ∧
      ((HotelScraper.todaysDestinations day).all fun o => o.isSome) = true := by
  decide

/-- C10: `saveDeals` of both scrapers writes an object whose `count` field
equals the length of its `deals` array. -/
theorem claim_C10_saved_count_matches :
    (∀ (deals : List FlightScraper.FlightDeal) (generated : String),
      (FlightScraper.saveDeals deals generated).count =
        ((FlightScraper.saveDeals deals generated).deals.getD []).length) ∧
    (∀ (deals : List HotelScraper.HotelDeal) (generated : String),
      (HotelScraper.saveDeals deals generated).count =
        ((HotelScraper.saveDeals deals generated).deals.getD []).length) :=
  ⟨fun _ _ => rfl, fun _ _ => rfl⟩

/-- C5: the `URLSearchParams`-based and the manually interpolated
implementations of `generateExpediaLink` are not extensionally equal: on a
concrete route and date pair they produce different URL strings (the
encoder percent-escapes the colons, commas and slashes of the leg
parameters). -/
theorem claim_C5_link_builders_disagree :
    ∃ origin dest departStr returnStr : String,
      FlightDealsEncoder.generateExpediaLink origin dest departStr returnStr ≠
        FlightScraper.generateExpediaLink origin dest departStr returnStr :=
  ⟨"JFK", "PAR", "06/15/2026", "06/22/2026", by decide⟩

/-- C6: every deal emitted by the flight scraper carries
`percentOff = Math.round((typical − current) / typical · 100)` where
`typical` is the destination's configured typical price with default 800
and `current` is the lowest scraped price, which is also the deal's
`price`. -/
theorem claim_C6_percent_off_formula (origin : FlightScraper.City)
    (destination : FlightScraper.Dest) (lowestPrice : Option Int)
    (s1 s2 s3 s4 s5 : String) (d : FlightScraper.FlightDeal)
    (h : d ∈ FlightScraper.scrapeGoogleFlights origin destination lowestPrice
      s1 s2 s3 s4 s5) :
    d.percentOff = some (ETravelogs.jsRound
      (100 * (FlightScraper.typicalFor destination.code - d.price))
      (FlightScraper.typicalFor destination.code)) ∧
    lowestPrice = some d.price := by
  cases lowestPrice with
  | none => simp [FlightScraper.scrapeGoogleFlights] at h
  | some lp =>
    simp only [FlightScraper.scrapeGoogleFlights] at h
    by_cases h0 : lp = 0
    · rw [if_pos h0] at h
      exact absurd h (List.not_mem_nil d)
    · rw [if_neg h0] at h
      by_cases hA : FlightScraper.flightAdmit (ETravelogs.jsRound
        (100 * (FlightScraper.typicalFor destination.code - lp))
        (FlightScraper.typicalFor destination.code))
      · rw [if_pos hA] at h
        rw [List.mem_singleton] at h
        subst h
        exact ⟨rfl, rfl⟩
      · rw [if_neg hA] at h
        exact absurd h (List.not_mem_nil d)

/-- C7: with percent-off below 25, a hotel card is admitted exactly when
its nightly price is strictly below 150 and a rating was parsed with value
at least 4.0 (40 tenths); a card at exactly 150, or with no parsed rating,
or with a rating below 4.0, is excluded. -/
theorem claim_C7_hotel_exception_clause (percentOff currentPrice : Int)
    (rating : Option Nat) (h : percentOff < 25) :
    HotelScraper.hotelAdmit percentOff currentPrice rating = true ↔
      currentPrice < 150 ∧ ∃ r, rating = some r ∧ 40 ≤ r := by
  cases rating with
  | none =>
    simp [HotelScraper.hotelAdmit, HotelScraper.minDiscountPercent,
      not_le.mpr h]
  | some r =>
    simp [HotelScraper.hotelAdmit, HotelScraper.minDiscountPercent,
      not_le.mpr h]

/-- C9: both `loadExistingDeals` implementations return the empty list when
the prior output file is missing or unreadable, and otherwise return
exactly the saved deals whose `scrapedAt` parses to a time strictly within
the last 7 days. -/
theorem claim_C9_load_existing_deals (parseDate : String → Option Int)
    (now : Int) :
    (FlightScraper.loadExistingDeals parseDate none now = [] ∧
     (∀ e, FlightScraper.loadExistingDeals parseDate
        (some (Except.error e)) now = []) ∧
     ∀ (data : FlightScraper.SavedFile FlightScraper.FlightDeal)
       (d : FlightScraper.FlightDeal),
       d ∈ FlightScraper.loadExistingDeals parseDate
           (some (Except.ok data)) now ↔
         d ∈ data.deals.getD [] ∧
           ∃ t, parseDate d.scrapedAt = some t ∧
             now - 7 * 24 * 60 * 60 * 1000 < t) ∧
    (HotelScraper.loadExistingDeals parseDate none now = [] ∧
     (∀ e, HotelScraper.loadExistingDeals parseDate
        (some (Except.error e)) now = []) ∧
     ∀ (data : FlightScraper.SavedFile HotelScraper.HotelDeal)
       (d : HotelScraper.HotelDeal),
       d ∈ HotelScraper.loadExistingDeals parseDate
           (some (Except.ok data)) now ↔
         d ∈ data.deals.getD [] ∧
           ∃ t, parseDate d.scrapedAt = some t ∧
             now - 7 * 24 * 60 * 60 * 1000 < t) := by
  refine ⟨⟨rfl, fun e => rfl, fun data d => ?_⟩,
    ⟨rfl, fun e => rfl, fun data d => ?_⟩⟩
  · simp only [FlightScraper.loadExistingDeals]
    rw [List.mem_filter]
    refine and_congr_right fun _ => ?_
    cases hp : parseDate d.scrapedAt with
    | none => simp [hp]
    | some t => simp [hp]
  · simp only [HotelScraper.loadExistingDeals]
    rw [List.mem_filter]
    refine and_congr_right fun _ => ?_
    cases hp : parseDate d.scrapedAt with
    | none => simp [hp]
    | some t => simp [hp]

set_option maxRecDepth 8192 in
/-- Witness for C6 at the JFK-Paris route with lowest price 600. -/
theorem claim_C6_witness :
    sampleParisDeal ∈ FlightScraper.scrapeGoogleFlights
        ⟨"JFK", "New York (JFK)", "NYC"⟩ ⟨"PAR", "Paris", "France"⟩
        (some 600) "2026-06-15" "2026-06-22" "06/15/2026" "06/22/2026" "t" ∧
      (sampleParisDeal.percentOff = some (ETravelogs.jsRound
        (100 * (FlightScraper.typicalFor "PAR" - sampleParisDeal.price))
        (FlightScraper.typicalFor "PAR")) ∧
       some 600 = some sampleParisDeal.price) :=
  ⟨by decide,
    claim_C6_percent_off_formula ⟨"JFK", "New York (JFK)", "NYC"⟩
      ⟨"PAR", "Paris", "France"⟩ (some 600) "2026-06-15" "2026-06-22"
      "06/15/2026" "06/22/2026" "t" sampleParisDeal (by decide)⟩

/-- Witness for C7 at percent-off 10, price 100 and rating 4.5. -/
theorem claim_C7_witness :
    (10 : Int) < 25 ∧
      (HotelScraper.hotelAdmit 10 100 (some 45) = true ↔
        (100 : Int) < 150 ∧ ∃ r, (some 45 : Option Nat) = some r ∧ 40 ≤ r) :=
  ⟨by decide, claim_C7_hotel_exception_clause 10 100 (some 45) (by decide)⟩

set_option maxRecDepth 100000 in
/-- C8: on the empty deal list, both post generators produce content that
contains the fallback paragraph and contains no deal-card block, for every
interpolated date string without a hyphen (`MMMM d, yyyy` renderings never
contain one). -/
theorem claim_C8_empty_fallback (dateStr dateIso : String)
    (hDate : '-' ∉ dateStr.data) :
    (PostGenerator.fallbackParagraph.data <:+:
        (PostGenerator.generateFlightDealsPost [] dateStr dateIso).content.data ∧
      ¬ ("deal-card".data <:+:
        (PostGenerator.generateFlightDealsPost [] dateStr dateIso).content.data)) ∧
    (PostGenerator.fallbackParagraph.data <:+:
        (PostGenerator.generateHotelDealsPost [] dateStr dateIso).content.data ∧
      ¬ ("deal-card".data <:+:
        (PostGenerator.generateHotelDealsPost [] dateStr dateIso).content.data)) := by
  have hdecF : (PostGenerator.generateFlightDealsPost [] dateStr dateIso).content.data =
      PostGenerator.flightIntroPre.data ++ (dateStr.data ++
        (PostGenerator.flightIntroPost.data ++
          (PostGenerator.fallbackParagraph.data ++
            (PostGenerator.flightFooterPre.data ++
              (dateStr.data ++ PostGenerator.flightFooterPost.data))))) := by
    simp [PostGenerator.generateFlightDealsPost, PostGenerator.flightContent,
      PostGenerator.flightDealsSection, String.data_append, List.append_assoc]
  have hdecH : (PostGenerator.generateHotelDealsPost [] dateStr dateIso).content.data =
      PostGenerator.hotelIntroPre.data ++ (dateStr.data ++
        (PostGenerator.hotelIntroPost.data ++
          (PostGenerator.fallbackParagraph.data ++
            (PostGenerator.hotelFooterPre.data ++
              (dateStr.data ++ PostGenerator.hotelFooterPost.data))))) := by
    simp [PostGenerator.generateHotelDealsPost, PostGenerator.hotelContent,
      PostGenerator.hotelDealsSection, String.data_append, List.append_assoc]
  refine ⟨⟨?_, ?_⟩, ?_, ?_⟩
  · rw [hdecF]
    exact ⟨PostGenerator.flightIntroPre.data ++ (dateStr.data ++
        PostGenerator.flightIntroPost.data),
      PostGenerator.flightFooterPre.data ++ (dateStr.data ++
        PostGenerator.flightFooterPost.data),
      by simp [List.append_assoc]⟩
  · rw [hdecF]
    intro hin
    have hpair : ['l', '-'] <:+: _ := List.IsInfix.trans (by decide) hin
    have htrue := (ETravelogs.pairIn_eq_true_iff 'l' '-' _).mpr hpair
    have hfalse := ETravelogs.pairIn_template_false 'l' '-'
      PostGenerator.flightIntroPre.data PostGenerator.flightIntroPost.data
      PostGenerator.fallbackParagraph.data PostGenerator.flightFooterPre.data
      PostGenerator.flightFooterPost.data dateStr.data
      (by decide) (by decide) (by decide) (by decide) (by decide) hDate
      (by decide) (by decide) (by decide) (by decide) (by decide)
      (by decide) (by decide)
    rw [hfalse] at htrue
    exact Bool.false_ne_true htrue
  · rw [hdecH]
    exact ⟨PostGenerator.hotelIntroPre.data ++ (dateStr.data ++
        PostGenerator.hotelIntroPost.data),
      PostGenerator.hotelFooterPre.data ++ (dateStr.data ++
        PostGenerator.hotelFooterPost.data),
      by simp [List.append_assoc]⟩
  · rw [hdecH]
    intro hin
    have hpair : ['l', '-'] <:+: _ := List.IsInfix.trans (by decide) hin
    have htrue := (ETravelogs.pairIn_eq_true_iff 'l' '-' _).mpr hpair
    have hfalse := ETravelogs.pairIn_template_false 'l' '-'
      PostGenerator.hotelIntroPre.data PostGenerator.hotelIntroPost.data
      PostGenerator.fallbackParagraph.data PostGenerator.hotelFooterPre.data
      PostGenerator.hotelFooterPost.data dateStr.data
      (by decide) (by decide) (by decide) (by decide) (by decide) hDate
      (by decide) (by decide) (by decide) (by decide) (by decide)
      (by decide) (by decide)
    rw [hfalse] at htrue
    exact Bool.false_ne_true htrue

set_option maxRecDepth 100000 in
/-- Witness for C8 at a concrete rendered date. -/
theorem claim_C8_witness :
    '-' ∉ "October 11, 2026".data ∧
      (PostGenerator.fallbackParagraph.data <:+:
        (PostGenerator.generateFlightDealsPost [] "October 11, 2026"
          "2026-10-11").content.data) :=
  ⟨by decide,
    (claim_C8_empty_fallback "October 11, 2026" "2026-10-11"
      (by decide)).1.1⟩
